import Mathlib

/-!
Verification of the wallet key-management and signing core of
`src/auth/hooks/useAuth.ts` (station-extension).

The TypeScript hook is shallowly embedded: external collaborators
(keystore, chain registry, LCD client, crypto primitives of feather.js,
ledger transport) are fields of an explicit `Env` record of total
functions, the recoil wallet atom together with the persisted wallet
choice is an explicit `AuthState`, thrown JS errors become `Except`
errors, and JS `undefined` becomes `Option`.
-/

/-- Error taxonomy of the hook. `passwordError` corresponds to the
`PasswordError` class from `auth/scripts/keystore`; all other thrown
values are plain `Error`s, distinguished here by their message. -/
inductive AuthError where
  | walletNotFound
  | walletLocked
  | walletNotDefined
  | ledgerNotConnected
  | passwordError (msg : String)
  | accountInfoUnavailable
  | signatureUndefined
  | ledgerCannotSign
  | typeError
  | broadcastError (rawLog : String)
deriving DecidableEq

/-- The connected wallet value held in the recoil `walletState` atom.
`localW` covers the local and multisig shapes `{name, words, multisig?}`
(tag `multisig` records whether the `multisig: true` field is present);
`ledgerW` covers `{name, words, pubkey, ledger: true, index, bluetooth}`. -/
inductive Wallet where
  | localW (name : String) (words : List (String × String)) (multisig : Bool)
  | ledgerW (name : String) (words : List (String × String))
      (pubkey : List (String × String)) (index : Nat) (bluetooth : Bool)
deriving DecidableEq

/-- The `name` property shared by both wallet shapes. -/
def Wallet.name : Wallet → String
  | .localW n _ _ => n
  | .ledgerW n _ _ _ _ => n

/-- A stored wallet record as returned by `getStoredWallet(name)`.
`withAddress` is the shape tested by `"address" in storedWallet`
(carrying the stored `multisig` tag); `withWords` is the other shape,
already in connected-wallet form. -/
inductive StoredWallet where
  | withAddress (address : String) (lock : Bool) (multisig : Bool)
  | withWords (w : Wallet) (lock : Bool)
deriving DecidableEq

/-- The `lock` flag of a stored wallet record. -/
def StoredWallet.lockFlag : StoredWallet → Bool
  | .withAddress _ l _ => l
  | .withWords _ l => l

/-- A decrypted key record as returned by `getDecryptedKey`: either a
seed record `{seed, legacy?, index?}` (the `"seed" in pk` branch) or a
raw record mapping coin-type tags to hex private keys. -/
inductive DecryptedKey where
  | seed (seedHex : String) (legacy : Bool) (index : Option Nat)
  | raw (byCoinType : List (String × String))
deriving DecidableEq

/-- The concrete key object constructed inside a signing call:
`LedgerKey.create({transport, index, coinType})`, `new SeedKey({seed,
coinType, index})` or `new RawKey(privateKeyBytes)`. -/
inductive ResolvedKey where
  | ledger (index : Nat) (bluetooth : Bool) (coinType : Nat)
  | seed (seedBytes : List Nat) (coinType : Nat) (index : Nat)
  | raw (privateKeyBytes : List Nat)
deriving DecidableEq

/-- `SignatureV2.SignMode` restricted to the values the hook mentions,
plus one further mode so that passing a mode through is observable. -/
inductive SignMode where
  | legacyAminoJson
  | direct
deriving DecidableEq

/-- The coin-type argument of `getPubkey`, whose TypeScript type is the
string union `"330" | "118"`. -/
inductive CoinType where
  | c330
  | c118
deriving DecidableEq

/-- The string form of the coin-type tag. -/
def CoinType.str : CoinType → String
  | .c330 => "330"
  | .c118 => "118"

/-- `parseInt` / `Number` applied to the coin-type tag. -/
def CoinType.num : CoinType → Nat
  | .c330 => 330
  | .c118 => 118

/-- The `SignDoc` built in `createSignature` from the chain id, the
fetched account number and sequence, and the transaction body parts. -/
structure SignDoc where
  chainID : String
  accountNumber : Nat
  sequence : Nat
  auth_info : Nat
  body : Nat
deriving DecidableEq

/-- A `Tx` value: only the two fields the hook reads. -/
structure Tx where
  auth_info : Nat
  body : Nat
deriving DecidableEq

/-- `CreateTxOptions`: only the field the hook reads (`chainID`), the
rest abstracted into one payload value. -/
structure CreateTxOptions where
  chainID : String
  msgs : Nat
deriving DecidableEq

/-- The result of `lcd.tx.broadcastSync`; `code` and `raw_log` drive
`isTxError`, the rest is abstracted into `payload`. -/
structure BroadcastResult where
  code : Nat
  raw_log : String
  payload : Nat
deriving DecidableEq

/-- The record returned by `signBytes` on success. -/
structure SignBytesResult where
  recid : Nat
  signature : String
  public_key : String
deriving DecidableEq

/-- The value of `testPassword` from the keystore gateway: `valid` for a
successful check, `errMsg` for an error-message result. -/
inductive PwCheck where
  | valid
  | errMsg (s : String)
deriving DecidableEq

/-- External collaborators of the hook, each a total function: the
keystore gateway, the chain registry (`networks[chainID].coinType`), the
LCD client, and the deterministic crypto primitives of feather.js and
the ledger library. Signatures and signed transactions are abstracted
to `Nat`; key bytes to `List Nat`. -/
structure Env where
  getStoredWallet : String → Option StoredWallet
  getDecryptedKey : String → String → Option DecryptedKey
  testPassword : String → String → PwCheck
  wordsFromAddress : String → String
  coinTypeOf : String → String
  accountInfo : String → Option (Nat × Nat)
  createSignatureAmino : ResolvedKey → SignDoc → Nat
  publicKey : ResolvedKey → List Nat
  publicKeyAmino : ResolvedKey → String
  ecdsaSign : ResolvedKey → List Nat → Option (List Nat) × Nat
  createAndSignTx : ResolvedKey → CreateTxOptions → Option SignMode → Nat
  broadcastSync : Nat → String → BroadcastResult
  toBase64 : List Nat → String

/-- Session state: the recoil `walletState` atom and the wallet choice
persisted by `storeWallet` / cleared by `clearWallet`. -/
structure AuthState where
  wallet : Option Wallet
  storedConnected : Option Wallet
deriving DecidableEq

/-- One hex digit, per `Buffer.from(s, "hex")`. -/
def hexDigit (c : Char) : Option Nat :=
  if c.toNat ≥ 48 ∧ c.toNat ≤ 57 then some (c.toNat - 48)
  else if c.toNat ≥ 97 ∧ c.toNat ≤ 102 then some (c.toNat - 97 + 10)
  else if c.toNat ≥ 65 ∧ c.toNat ≤ 70 then some (c.toNat - 65 + 10)
  else none

/-- Hex decoding as `Buffer.from(s, "hex")` does it: byte pairs up to
the first invalid pair, a trailing odd nibble dropped. -/
def decodeHexChars : List Char → List Nat
  | a :: b :: rest =>
    match hexDigit a, hexDigit b with
    | some ha, some hb => (16 * ha + hb) :: decodeHexChars rest
    | _, _ => []
  | _ => []

/-- `Buffer.from(s, "hex")` on a string. -/
def decodeHex (s : String) : List Nat := decodeHexChars s.data

/-- `parseInt` / `Number` on the decimal coin-type tags the registry
produces ("330", "118", ...); a non-numeric tag is mapped to 0. -/
def parseDecimal (s : String) : Nat := s.toNat?.getD 0

/-- JS truthiness test `!pk[coinType]` on an optional string: missing
(`undefined`) and the empty string are both falsy. -/
def falsyStr : Option String → Bool
  | none => true
  | some s => s == ""

/-- Modelled from the spec: `is.local` from the repository module
`auth/scripts/is`, which is not under src/. The spec's descriptor kinds
are Local, Multisig and Hardware, where Multisig and Local share shape
and Hardware (ledger) is the distinct kind; a wallet is "local" when it
is present and is not a hardware wallet. -/
def isLocal : Option Wallet → Bool
  | some (Wallet.localW _ _ _) => true
  | _ => false

/-- The `connectedWallet` memo: the wallet atom if `is.local(wallet)`,
otherwise `undefined`. -/
def connectedWallet (st : AuthState) : Option Wallet :=
  if isLocal st.wallet then st.wallet else none

/-- `getConnectedWallet`: the memo value, or throw "Wallet is not
defined". -/
def getConnectedWallet (st : AuthState) : Except AuthError Wallet :=
  match connectedWallet st with
  | some w => .ok w
  | none => .error AuthError.walletNotDefined

/-- `connect(name)`. On success both the persisted choice
(`storeWallet`) and the atom (`setWallet`) are updated; a throw leaves
the state exactly as it was, since the lock test precedes both. -/
def connect (env : Env) (st : AuthState) (name : String) :
    Except AuthError Unit × AuthState :=
  match env.getStoredWallet name with
  | none => (.error AuthError.walletNotFound, st)
  | some (StoredWallet.withAddress address lock multisig) =>
    let words := [("330", env.wordsFromAddress address)]
    if lock then (.error AuthError.walletLocked, st)
    else
      let w := Wallet.localW name words multisig
      (.ok (), ⟨some w, some w⟩)
  | some (StoredWallet.withWords w lock) =>
    if lock then (.error AuthError.walletLocked, st)
    else (.ok (), ⟨some w, some w⟩)

/-- `disconnect()`: `clearWallet()` then `setWallet(undefined)`. -/
def disconnect (st : AuthState) : AuthState :=
  let _ := st
  ⟨none, none⟩

/-- The `getKey(password)` helper: name of the connected wallet, then
`getDecryptedKey({name, password})` (which yields `undefined` on a wrong
password or a missing record). -/
def getKey (env : Env) (st : AuthState) (password : String) :
    Except AuthError (Option DecryptedKey) :=
  match getConnectedWallet st with
  | .error e => .error e
  | .ok w => .ok (env.getDecryptedKey w.name password)

/-- `validatePassword(password)`: the keystore's `testPassword` result,
with any throw (in particular "Wallet is not defined") caught and turned
into the value "Incorrect password". -/
def validatePassword (env : Env) (st : AuthState) (password : String) : PwCheck :=
  match getConnectedWallet st with
  | .error _ => PwCheck.errMsg "Incorrect password"
  | .ok w => env.testPassword w.name password

/-- `createSignature(tx, chainID, address, password)`: fetch account
info, build the `SignDoc`, then sign amino-style with the ledger key,
the seed key (with the legacy coin-type fallback) or the raw key for the
chain's coin type (with the JS-falsy presence check). -/
def createSignature (env : Env) (st : AuthState) (tx : Tx) (chainID : String)
    (address : String) (password : String) : Except AuthError Nat :=
  match st.wallet with
  | none => .error AuthError.walletNotDefined
  | some w =>
    match env.accountInfo address with
    | none => .error AuthError.accountInfoUnavailable
    | some (accNum, seq) =>
      let doc : SignDoc := ⟨chainID, accNum, seq, tx.auth_info, tx.body⟩
      match w with
      | Wallet.ledgerW _ _ _ index bluetooth =>
        .ok (env.createSignatureAmino
          (ResolvedKey.ledger index bluetooth (parseDecimal (env.coinTypeOf chainID))) doc)
      | Wallet.localW _ _ _ =>
        match getKey env st password with
        | .error e => .error e
        | .ok none => .error (AuthError.passwordError "Incorrect password")
        | .ok (some (DecryptedKey.seed seedHex legacy idx)) =>
          let requested := parseDecimal (env.coinTypeOf chainID)
          let ct := if legacy && requested == 330 then 118 else requested
          .ok (env.createSignatureAmino
            (ResolvedKey.seed (decodeHex seedHex) ct (idx.getD 0)) doc)
        | .ok (some (DecryptedKey.raw byCoinType)) =>
          let entry := byCoinType.lookup (env.coinTypeOf chainID)
          if falsyStr entry then .error (AuthError.passwordError "Incorrect password")
          else .ok (env.createSignatureAmino
            (ResolvedKey.raw (decodeHex (entry.getD ""))) doc)

/-- `getPubkey(coinType, password)`: the public key of the ledger key,
the seed key (coin type `legacy ? 118 : parseInt(coinType)`) or the raw
key for the requested coin type (with the JS-falsy presence check). -/
def getPubkey (env : Env) (st : AuthState) (coinType : CoinType)
    (password : String) : Except AuthError (List Nat) :=
  match st.wallet with
  | none => .error AuthError.walletNotDefined
  | some (Wallet.ledgerW _ _ _ index bluetooth) =>
    .ok (env.publicKey (ResolvedKey.ledger index bluetooth coinType.num))
  | some (Wallet.localW _ _ _) =>
    match getKey env st password with
    | .error e => .error e
    | .ok none => .error (AuthError.passwordError "Incorrect password")
    | .ok (some (DecryptedKey.seed seedHex legacy idx)) =>
      .ok (env.publicKey (ResolvedKey.seed (decodeHex seedHex)
        (if legacy then 118 else coinType.num) (idx.getD 0)))
    | .ok (some (DecryptedKey.raw byCoinType)) =>
      let entry := byCoinType.lookup coinType.str
      if falsyStr entry then .error (AuthError.passwordError "Incorrect password")
      else .ok (env.publicKey (ResolvedKey.raw (decodeHex (entry.getD ""))))

/-- `sign(txOptions, password, signMode?)`: `createAndSignTx` with the
ledger key and the sign mode forced to `SIGN_MODE_LEGACY_AMINO_JSON`;
with the seed key (legacy coin-type fallback) and the caller's
`signMode`; or with the raw key for the chain's coin type and no sign
mode at all (the source calls `createAndSignTx(txOptions)` there). -/
def sign (env : Env) (st : AuthState) (txOptions : CreateTxOptions)
    (password : String) (signMode : Option SignMode) : Except AuthError Nat :=
  match st.wallet with
  | none => .error AuthError.walletNotDefined
  | some (Wallet.ledgerW _ _ _ index bluetooth) =>
    .ok (env.createAndSignTx
      (ResolvedKey.ledger index bluetooth (parseDecimal (env.coinTypeOf txOptions.chainID)))
      txOptions (some SignMode.legacyAminoJson))
  | some (Wallet.localW _ _ _) =>
    match getKey env st password with
    | .error e => .error e
    | .ok none => .error (AuthError.passwordError "Incorrect password")
    | .ok (some (DecryptedKey.seed seedHex legacy idx)) =>
      let requested := parseDecimal (env.coinTypeOf txOptions.chainID)
      let ct := if legacy && requested == 330 then 118 else requested
      .ok (env.createAndSignTx (ResolvedKey.seed (decodeHex seedHex) ct (idx.getD 0))
        txOptions signMode)
    | .ok (some (DecryptedKey.raw byCoinType)) =>
      let entry := byCoinType.lookup (env.coinTypeOf txOptions.chainID)
      if falsyStr entry then .error (AuthError.passwordError "Incorrect password")
      else .ok (env.createAndSignTx (ResolvedKey.raw (decodeHex (entry.getD "")))
        txOptions none)

/-- The block `key.ecdsaSign(bytes)` + undefined-signature check +
result record, which the source repeats verbatim in both the seed and
the raw branch of `signBytes`. -/
def ecdsaSignResult (env : Env) (key : ResolvedKey) (bytes : List Nat) :
    Except AuthError SignBytesResult :=
  match env.ecdsaSign key bytes with
  | (none, _) => .error AuthError.signatureUndefined
  | (some sig, recid) => .ok ⟨recid, env.toBase64 sig, env.publicKeyAmino key⟩

/-- `signBytes(bytes, password)`: ledger wallets throw "Ledger can not
sign arbitrary data" before any password use; a seed key uses coin type
`legacy ? 118 : 330`; a raw key reads `pk["330"]` directly with no
presence check, so a missing entry reaches `Buffer.from(undefined,
"hex")`, which throws a `TypeError` (not a `PasswordError`). -/
def signBytes (env : Env) (st : AuthState) (bytes : List Nat)
    (password : String) : Except AuthError SignBytesResult :=
  match st.wallet with
  | none => .error AuthError.walletNotDefined
  | some (Wallet.ledgerW _ _ _ _ _) => .error AuthError.ledgerCannotSign
  | some (Wallet.localW _ _ _) =>
    match getKey env st password with
    | .error e => .error e
    | .ok none => .error (AuthError.passwordError "Incorrect password")
    | .ok (some (DecryptedKey.seed seedHex legacy idx)) =>
      ecdsaSignResult env
        (ResolvedKey.seed (decodeHex seedHex) (if legacy then 118 else 330) (idx.getD 0))
        bytes
    | .ok (some (DecryptedKey.raw byCoinType)) =>
      match byCoinType.lookup "330" with
      | none => .error AuthError.typeError
      | some hex => ecdsaSignResult env (ResolvedKey.raw (decodeHex hex)) bytes

/-- `isTxError(result)`: the broadcast result carries a nonzero code. -/
def isTxError (r : BroadcastResult) : Bool := r.code != 0

/-- Decidable equality for `Except` results, used to evaluate concrete
runs of the operations. -/
instance {ε : Type} {α : Type} [DecidableEq ε] [DecidableEq α] :
    DecidableEq (Except ε α) := fun a b =>
  match a, b with
  | .error e1, .error e2 =>
    if h : e1 = e2 then .isTrue (h ▸ rfl) else .isFalse (fun hc => h (Except.error.inj hc))
  | .ok v1, .ok v2 =>
    if h : v1 = v2 then .isTrue (h ▸ rfl) else .isFalse (fun hc => h (Except.ok.inj hc))
  | .error _, .ok _ => .isFalse (fun hc => Except.noConfusion hc)
  | .ok _, .error _ => .isFalse (fun hc => Except.noConfusion hc)

/-- `post(txOptions, password, signMode?)`: require a wallet, sign, then
broadcast. The second component of the result is the trace of
`broadcastSync` invocations (arguments of each call), so that "submits
exactly once" is statable; the source contains a single un-retried
call. -/
def post (env : Env) (st : AuthState) (txOptions : CreateTxOptions)
    (password : String) (signMode : Option SignMode) :
    Except AuthError BroadcastResult × List (Nat × String) :=
  match st.wallet with
  | none => (.error AuthError.walletNotDefined, [])
  | some _ =>
    match sign env st txOptions password signMode with
    | .error e => (.error e, [])
    | .ok signedTx =>
      let result := env.broadcastSync signedTx txOptions.chainID
      if isTxError result then
        (.error (AuthError.broadcastError result.raw_log), [(signedTx, txOptions.chainID)])
      else
        (.ok result, [(signedTx, txOptions.chainID)])

/-- A concrete environment for evaluating the operations: stored wallets
"L" (locked) and "U" (unlocked); decryptable records "A" (raw key for
coin type 330), "B" (raw key for 118 only), "E" (raw entry for 330
stored as the empty string) and "S" (legacy seed record), all under
password "pw"; registry mapping "osmo" to coin type "118" and every
other chain to "330"; account info available for address "addr";
`createAndSignTx` reporting which sign mode it received (0 none,
1 legacy-amino, 2 direct); broadcast failing with raw log "oops" on
chain "bad". -/
def envW : Env :=
  ⟨fun n =>
      if n == "L" then some (StoredWallet.withAddress "t1qq" true false)
      else if n == "U" then some (StoredWallet.withAddress "t1qq" false false)
      else none,
    fun n p =>
      if n == "A" && p == "pw" then some (DecryptedKey.raw [("330", "0a")])
      else if n == "B" && p == "pw" then some (DecryptedKey.raw [("118", "0b")])
      else if n == "E" && p == "pw" then some (DecryptedKey.raw [("330", "")])
      else if n == "S" && p == "pw" then some (DecryptedKey.seed "ab" true (some 2))
      else none,
    fun _ _ => PwCheck.valid,
    fun a => a ++ "w",
    fun c => if c == "osmo" then "118" else "330",
    fun a => if a == "addr" then some (5, 7) else none,
    fun _ _ => 11,
    fun _ => [9, 9],
    fun _ => "PK",
    fun _ b => (some (b ++ [1]), 3),
    fun _ _ sm =>
      match sm with
      | none => 0
      | some SignMode.legacyAminoJson => 1
      | some SignMode.direct => 2,
    fun stx c => if c == "bad" then ⟨5, "oops", stx⟩ else ⟨0, "", stx⟩,
    fun _ => "b64"⟩

/-- C2: for every stored record whose lock flag is set, `connect` fails
with the WalletLocked error ("Wallet is locked") and returns the session
state unchanged: no descriptor becomes connected and nothing is
persisted, in both stored-record shapes, since the lock test precedes
`storeWallet` and `setWallet`. -/
theorem c2_connect_locked_unchanged (env : Env) (st : AuthState)
    (name : String) (sw : StoredWallet)
    (hs : env.getStoredWallet name = some sw)
    (hl : sw.lockFlag = true) :
    connect env st name = (.error AuthError.walletLocked, st) := by
  cases sw with
  | withAddress address lock multisig =>
    simp only [StoredWallet.lockFlag] at hl
    simp [connect, hs, hl]
  | withWords w lock =>
    simp only [StoredWallet.lockFlag] at hl
    simp [connect, hs, hl]

/-- Witness for C2: connecting the locked stored wallet "L" of the
concrete environment fails with WalletLocked and leaves the session
state untouched. -/
theorem c2_connect_locked_unchanged_witness :
    connect envW ⟨none, none⟩ "L" = (.error AuthError.walletLocked, ⟨none, none⟩) :=
  c2_connect_locked_unchanged envW ⟨none, none⟩ "L"
    (StoredWallet.withAddress "t1qq" true false) rfl rfl

/-- C4: with a ledger (hardware) wallet connected, `signBytes` fails
with "Ledger can not sign arbitrary data" for every payload and every
password, and for every environment whatsoever — in particular the
keystore gateway is never consulted, so the failure happens before any
password check or key resolution. -/
theorem c4_signBytes_ledger_unsupported (env : Env) (st : AuthState)
    (bytes : List Nat) (pw n : String) (ws pk : List (String × String))
    (i : Nat) (b : Bool)
    (hw : st.wallet = some (Wallet.ledgerW n ws pk i b)) :
    signBytes env st bytes pw = .error AuthError.ledgerCannotSign := by
  simp [signBytes, hw]

/-- Witness for C4: a connected ledger wallet makes `signBytes` fail
with the unsupported-operation error, even though the environment would
have decrypted nothing for it. -/
theorem c4_signBytes_ledger_unsupported_witness :
    signBytes envW ⟨some (Wallet.ledgerW "Ledger" [("330", "w3")] [("330", "p3")] 0 false), none⟩
      [1, 2, 3] "pw" = .error AuthError.ledgerCannotSign :=
  c4_signBytes_ledger_unsupported envW _ [1, 2, 3] "pw" "Ledger"
    [("330", "w3")] [("330", "p3")] 0 false rfl

/-- Counterexample for C5: with a ledger wallet connected (the atom
holds a wallet descriptor), `getConnectedWallet` nevertheless fails with
"Wallet is not defined", because the `connectedWallet` memo requires
`is.local(wallet)`. So `getConnected` does not return the connected
descriptor "whenever any wallet descriptor (of any kind) is
connected". -/
theorem c5_getConnected_counterexample :
    (AuthState.mk (some (Wallet.ledgerW "Ledger" [("330", "w3")] [("330", "p3")] 0 false)) none).wallet ≠
      none ∧
    getConnectedWallet
      ⟨some (Wallet.ledgerW "Ledger" [("330", "w3")] [("330", "p3")] 0 false), none⟩ =
      .error AuthError.walletNotDefined := by
  constructor
  · simp
  · rfl

/-- C5 (amended): `getConnectedWallet` returns the connected descriptor
when the connected wallet is a local (non-hardware) one, and fails with
the NoWalletConnected error ("Wallet is not defined") both when no
wallet is connected and when the connected wallet is a hardware (ledger)
wallet. -/
theorem c5_getConnected_amended (st : AuthState) :
    (st.wallet = none → getConnectedWallet st = .error AuthError.walletNotDefined) ∧
    (∀ n ws pk i b, st.wallet = some (Wallet.ledgerW n ws pk i b) →
      getConnectedWallet st = .error AuthError.walletNotDefined) ∧
    (∀ n ws m, st.wallet = some (Wallet.localW n ws m) →
      getConnectedWallet st = .ok (Wallet.localW n ws m)) := by
  refine ⟨fun h => ?_, fun n ws pk i b h => ?_, fun n ws m h => ?_⟩ <;>
    simp [getConnectedWallet, connectedWallet, isLocal, h]

/-- Witness for the amended C5, on the three concrete session states. -/
theorem c5_getConnected_amended_witness :
    getConnectedWallet ⟨none, none⟩ = .error AuthError.walletNotDefined ∧
    getConnectedWallet ⟨some (Wallet.ledgerW "Ledger" [] [] 0 true), none⟩ =
      .error AuthError.walletNotDefined ∧
    getConnectedWallet ⟨some (Wallet.localW "A" [("330", "w1")] false), none⟩ =
      .ok (Wallet.localW "A" [("330", "w1")] false) :=
  ⟨(c5_getConnected_amended ⟨none, none⟩).1 rfl,
    (c5_getConnected_amended ⟨some (Wallet.ledgerW "Ledger" [] [] 0 true), none⟩).2.1
      "Ledger" [] [] 0 true rfl,
    (c5_getConnected_amended ⟨some (Wallet.localW "A" [("330", "w1")] false), none⟩).2.2
      "A" [("330", "w1")] false rfl⟩

/-- C10: `validatePassword` never propagates an error: whenever the
connected-wallet lookup fails (in particular when no wallet is
connected), it returns the string "Incorrect password" as a value
instead of failing with the NoWalletConnected error, and only when the
lookup succeeds does it return the keystore gateway's password-test
result. -/
theorem c10_validatePassword_never_throws (env : Env) (st : AuthState)
    (pw : String) :
    (st.wallet = none → validatePassword env st pw = PwCheck.errMsg "Incorrect password") ∧
    (∀ e, getConnectedWallet st = .error e →
      validatePassword env st pw = PwCheck.errMsg "Incorrect password") ∧
    (∀ w, getConnectedWallet st = .ok w →
      validatePassword env st pw = env.testPassword w.name pw) := by
  refine ⟨fun h => ?_, fun e h => ?_, fun w h => ?_⟩
  · simp [validatePassword, getConnectedWallet, connectedWallet, isLocal, h]
  · simp [validatePassword, h]
  · simp [validatePassword, h]

/-- Witness for C10: with nothing connected, `validatePassword` returns
the value "Incorrect password"; with the local wallet "U" connected it
returns the gateway's result. -/
theorem c10_validatePassword_never_throws_witness :
    validatePassword envW ⟨none, none⟩ "pw" = PwCheck.errMsg "Incorrect password" ∧
    validatePassword envW ⟨some (Wallet.localW "U" [("330", "w1")] false), none⟩ "pw" =
      envW.testPassword "U" "pw" :=
  ⟨(c10_validatePassword_never_throws envW ⟨none, none⟩ "pw").1 rfl,
    (c10_validatePassword_never_throws envW
        ⟨some (Wallet.localW "U" [("330", "w1")] false), none⟩ "pw").2.2
      (Wallet.localW "U" [("330", "w1")] false) rfl⟩

/-- C1: for a connected wallet whose stored record is a seed record with
`legacy = true`, every key-resolving operation uses effective coin type
118 exactly when the requested coin type is the default 330, and uses
the requested coin type unchanged otherwise: `createSignature` and
`sign` request the registry's coin type for the chain, `getPubkey`
requests its "330" | "118" argument (for "118" the source's
`legacy ? 118 : parseInt(coinType)` coincides with the unchanged
value), and `signBytes` implicitly requests the default 330. -/
theorem c1_seed_legacy_coin_type (env : Env) (st : AuthState)
    (name : String) (ws : List (String × String)) (seedHex : String)
    (idx : Option Nat) (pw : String)
    (hw : st.wallet = some (Wallet.localW name ws false))
    (hk : env.getDecryptedKey name pw = some (DecryptedKey.seed seedHex true idx)) :
    (∀ tx chainID address accNum seq,
      env.accountInfo address = some (accNum, seq) →
      createSignature env st tx chainID address pw =
        .ok (env.createSignatureAmino
          (ResolvedKey.seed (decodeHex seedHex)
            (if parseDecimal (env.coinTypeOf chainID) == 330 then 118
             else parseDecimal (env.coinTypeOf chainID))
            (idx.getD 0))
          ⟨chainID, accNum, seq, tx.auth_info, tx.body⟩)) ∧
    (∀ txOptions sm,
      sign env st txOptions pw sm =
        .ok (env.createAndSignTx
          (ResolvedKey.seed (decodeHex seedHex)
            (if parseDecimal (env.coinTypeOf txOptions.chainID) == 330 then 118
             else parseDecimal (env.coinTypeOf txOptions.chainID))
            (idx.getD 0))
          txOptions sm)) ∧
    (∀ ct : CoinType,
      getPubkey env st ct pw =
        .ok (env.publicKey
          (ResolvedKey.seed (decodeHex seedHex)
            (if ct.num == 330 then 118 else ct.num) (idx.getD 0)))) ∧
    (∀ bytes,
      signBytes env st bytes pw =
        ecdsaSignResult env
          (ResolvedKey.seed (decodeHex seedHex)
            (if (330 : Nat) == 330 then 118 else 330) (idx.getD 0))
          bytes) := by
  refine ⟨fun tx chainID address accNum seq ha => ?_, fun txOptions sm => ?_,
    fun ct => ?_, fun bytes => ?_⟩
  · simp [createSignature, hw, ha, getKey, getConnectedWallet, connectedWallet,
      isLocal, Wallet.name, hk]
  · simp [sign, hw, getKey, getConnectedWallet, connectedWallet, isLocal,
      Wallet.name, hk]
  · cases ct <;>
      simp [getPubkey, hw, getKey, getConnectedWallet, connectedWallet, isLocal,
        Wallet.name, hk, CoinType.num]
  · simp [signBytes, hw, getKey, getConnectedWallet, connectedWallet, isLocal,
      Wallet.name, hk]

/-- Witness for C1: the legacy seed wallet "S" of the concrete
environment, exercised on a default-coin-type chain (effective 118), so
every hypothesis of the theorem is discharged concretely. -/
theorem c1_seed_legacy_coin_type_witness :
    createSignature envW ⟨some (Wallet.localW "S" [] false), none⟩ ⟨1, 2⟩ "phoenix-1"
      "addr" "pw" =
      .ok (envW.createSignatureAmino (ResolvedKey.seed (decodeHex "ab") 118 2)
        ⟨"phoenix-1", 5, 7, 1, 2⟩) ∧
    getPubkey envW ⟨some (Wallet.localW "S" [] false), none⟩ CoinType.c330 "pw" =
      .ok (envW.publicKey (ResolvedKey.seed (decodeHex "ab") 118 2)) := by
  have h := c1_seed_legacy_coin_type envW ⟨some (Wallet.localW "S" [] false), none⟩
    "S" [] "ab" (some 2) "pw" rfl rfl
  refine ⟨?_, ?_⟩
  · have h1 := h.1 ⟨1, 2⟩ "phoenix-1" "addr" 5 7 rfl
    simpa [parseDecimal, envW] using h1
  · have h3 := h.2.2.1 CoinType.c330
    simpa [CoinType.num] using h3

/-- Counterexample for C3: the raw-key wallet "E" stores an entry for
coin type "330" (the empty string), yet resolving a key for "330" with
the correct password does not succeed — the JS-falsy presence check
`!pk[coinType]` treats the empty entry like a missing one and throws the
IncorrectPassword-class error. -/
theorem c3_raw_resolution_counterexample :
    envW.getDecryptedKey "E" "pw" = some (DecryptedKey.raw [("330", "")]) ∧
    List.lookup "330" [("330", "")] = some "" ∧
    getPubkey envW ⟨some (Wallet.localW "E" [] false), none⟩ CoinType.c330 "pw" =
      .error (AuthError.passwordError "Incorrect password") := by
  refine ⟨rfl, rfl, ?_⟩
  rfl

/-- C3 (amended): for a raw-key wallet and the correct password,
resolving a key for a coin type whose entry is a nonempty hex string
succeeds and uses exactly that stored private key; resolving for a coin
type whose entry is missing — or stored as the empty string, which the
JS-falsy check treats the same way — fails with the PasswordError
"Incorrect password", the very same error a wrong password produces, so
the failures are not distinguishable by error kind. -/
theorem c3_raw_resolution_amended (env : Env) (st : AuthState)
    (n : String) (ws byCT : List (String × String)) (pw : String)
    (hw : st.wallet = some (Wallet.localW n ws false))
    (hk : env.getDecryptedKey n pw = some (DecryptedKey.raw byCT)) :
    (∀ tx chainID address accNum seq hex,
      env.accountInfo address = some (accNum, seq) →
      byCT.lookup (env.coinTypeOf chainID) = some hex → hex ≠ "" →
      createSignature env st tx chainID address pw =
        .ok (env.createSignatureAmino (ResolvedKey.raw (decodeHex hex))
          ⟨chainID, accNum, seq, tx.auth_info, tx.body⟩)) ∧
    (∀ ct hex, byCT.lookup (CoinType.str ct) = some hex → hex ≠ "" →
      getPubkey env st ct pw = .ok (env.publicKey (ResolvedKey.raw (decodeHex hex)))) ∧
    (∀ tx chainID address accNum seq,
      env.accountInfo address = some (accNum, seq) →
      falsyStr (byCT.lookup (env.coinTypeOf chainID)) = true →
      createSignature env st tx chainID address pw =
        .error (AuthError.passwordError "Incorrect password")) ∧
    (∀ ct, falsyStr (byCT.lookup (CoinType.str ct)) = true →
      getPubkey env st ct pw = .error (AuthError.passwordError "Incorrect password")) ∧
    (∀ pw2 ct, env.getDecryptedKey n pw2 = none →
      getPubkey env st ct pw2 = .error (AuthError.passwordError "Incorrect password")) := by
  refine ⟨fun tx chainID address accNum seq hex ha he hne => ?_,
    fun ct hex he hne => ?_, fun tx chainID address accNum seq ha hf => ?_,
    fun ct hf => ?_, fun pw2 ct h2 => ?_⟩
  · simp [createSignature, hw, ha, getKey, getConnectedWallet, connectedWallet,
      isLocal, Wallet.name, hk, he, falsyStr, hne]
  · simp [getPubkey, hw, getKey, getConnectedWallet, connectedWallet,
      isLocal, Wallet.name, hk, he, falsyStr, hne]
  · simp [createSignature, hw, ha, getKey, getConnectedWallet, connectedWallet,
      isLocal, Wallet.name, hk, hf]
  · simp [getPubkey, hw, getKey, getConnectedWallet, connectedWallet,
      isLocal, Wallet.name, hk, hf]
  · simp [getPubkey, hw, getKey, getConnectedWallet, connectedWallet,
      isLocal, Wallet.name, h2]

/-- Witness for the amended C3: wallet "A" (raw entry "0a" under "330"):
resolving "330" with the correct password succeeds with that key, while
resolving "118" (no entry) and resolving with a wrong password both fail
with the identical PasswordError. -/
theorem c3_raw_resolution_amended_witness :
    getPubkey envW ⟨some (Wallet.localW "A" [] false), none⟩ CoinType.c330 "pw" =
      .ok (envW.publicKey (ResolvedKey.raw (decodeHex "0a"))) ∧
    getPubkey envW ⟨some (Wallet.localW "A" [] false), none⟩ CoinType.c118 "pw" =
      .error (AuthError.passwordError "Incorrect password") ∧
    getPubkey envW ⟨some (Wallet.localW "A" [] false), none⟩ CoinType.c330 "wrong" =
      .error (AuthError.passwordError "Incorrect password") := by
  have h := c3_raw_resolution_amended envW ⟨some (Wallet.localW "A" [] false), none⟩
    "A" [] [("330", "0a")] "pw" rfl rfl
  exact ⟨h.2.1 CoinType.c330 "0a" rfl (by decide),
    h.2.2.2.1 CoinType.c118 rfl,
    h.2.2.2.2 "wrong" CoinType.c330 rfl⟩

/-- Counterexample for C6: a raw-key wallet signing with a
caller-supplied sign mode. The concrete `createAndSignTx` reports the
sign mode it received (2 for the caller's direct mode, 0 for none); the
claim predicts the caller's mode is passed through, but `sign` invokes
`createAndSignTx(txOptions)` with no sign mode in the raw branch, so the
result differs from the pass-through prediction. -/
theorem c6_sign_mode_counterexample :
    sign envW ⟨some (Wallet.localW "A" [] false), none⟩ ⟨"phoenix-1", 0⟩ "pw"
        (some SignMode.direct) ≠
      .ok (envW.createAndSignTx (ResolvedKey.raw (decodeHex "0a")) ⟨"phoenix-1", 0⟩
        (some SignMode.direct)) := by
  decide

/-- C6 (amended): with a ledger (hardware) wallet the sign mode is
forced to legacy-amino regardless of the caller's mode; with a seed key
the caller's sign mode is passed through; with a raw key the caller's
sign mode is discarded and the transaction is created with no sign mode
at all. -/
theorem c6_sign_mode_amended (env : Env) (st : AuthState) (pw : String) :
    (∀ n ws pk i b txOptions sm, st.wallet = some (Wallet.ledgerW n ws pk i b) →
      sign env st txOptions pw sm =
        .ok (env.createAndSignTx
          (ResolvedKey.ledger i b (parseDecimal (env.coinTypeOf txOptions.chainID)))
          txOptions (some SignMode.legacyAminoJson))) ∧
    (∀ n ws seedHex legacy idx txOptions sm,
      st.wallet = some (Wallet.localW n ws false) →
      env.getDecryptedKey n pw = some (DecryptedKey.seed seedHex legacy idx) →
      sign env st txOptions pw sm =
        .ok (env.createAndSignTx
          (ResolvedKey.seed (decodeHex seedHex)
            (if legacy && parseDecimal (env.coinTypeOf txOptions.chainID) == 330 then 118
             else parseDecimal (env.coinTypeOf txOptions.chainID))
            (idx.getD 0))
          txOptions sm)) ∧
    (∀ n ws byCT hex txOptions sm,
      st.wallet = some (Wallet.localW n ws false) →
      env.getDecryptedKey n pw = some (DecryptedKey.raw byCT) →
      byCT.lookup (env.coinTypeOf txOptions.chainID) = some hex → hex ≠ "" →
      sign env st txOptions pw sm =
        .ok (env.createAndSignTx (ResolvedKey.raw (decodeHex hex)) txOptions none)) := by
  refine ⟨fun n ws pk i b txOptions sm hw => ?_,
    fun n ws seedHex legacy idx txOptions sm hw hk => ?_,
    fun n ws byCT hex txOptions sm hw hk he hne => ?_⟩
  · simp [sign, hw]
  · simp [sign, hw, getKey, getConnectedWallet, connectedWallet, isLocal,
      Wallet.name, hk]
  · simp [sign, hw, getKey, getConnectedWallet, connectedWallet, isLocal,
      Wallet.name, hk, he, falsyStr, hne]

/-- Witness for the amended C6: a ledger wallet gets the forced
legacy-amino mode (reported as 1), the legacy seed wallet "S" gets the
caller's direct mode (reported as 2), the raw wallet "A" gets no mode
(reported as 0). -/
theorem c6_sign_mode_amended_witness :
    sign envW ⟨some (Wallet.ledgerW "Ledger" [] [] 4 true), none⟩ ⟨"phoenix-1", 0⟩
      "pw" (some SignMode.direct) = .ok 1 ∧
    sign envW ⟨some (Wallet.localW "S" [] false), none⟩ ⟨"phoenix-1", 0⟩
      "pw" (some SignMode.direct) = .ok 2 ∧
    sign envW ⟨some (Wallet.localW "A" [] false), none⟩ ⟨"phoenix-1", 0⟩
      "pw" (some SignMode.direct) = .ok 0 := by
  refine ⟨?_, ?_, ?_⟩
  · have h := (c6_sign_mode_amended envW ⟨some (Wallet.ledgerW "Ledger" [] [] 4 true), none⟩
      "pw").1 "Ledger" [] [] 4 true ⟨"phoenix-1", 0⟩ (some SignMode.direct) rfl
    simpa using h
  · have h := (c6_sign_mode_amended envW ⟨some (Wallet.localW "S" [] false), none⟩
      "pw").2.1 "S" [] "ab" true (some 2) ⟨"phoenix-1", 0⟩ (some SignMode.direct) rfl rfl
    simpa [parseDecimal, envW] using h
  · have h := (c6_sign_mode_amended envW ⟨some (Wallet.localW "A" [] false), none⟩
      "pw").2.2 "A" [] [("330", "0a")] "0a" ⟨"phoenix-1", 0⟩ (some SignMode.direct)
      rfl rfl rfl (by decide)
    simpa using h

/-- C7: `post` requires a connected wallet; when signing succeeds it
hands the signed transaction to `broadcastSync` exactly once (the
invocation trace has exactly one element, so there is no retry), fails
with the BroadcastError carrying the chain's raw log whenever the
broadcast result is a transaction-level error, and otherwise returns the
broadcast result unchanged; a signing failure is propagated without any
broadcast call. -/
theorem c7_post_broadcast_once (env : Env) (st : AuthState)
    (txOptions : CreateTxOptions) (pw : String) (sm : Option SignMode) :
    (st.wallet = none →
      post env st txOptions pw sm = (.error AuthError.walletNotDefined, [])) ∧
    (∀ w e, st.wallet = some w → sign env st txOptions pw sm = .error e →
      post env st txOptions pw sm = (.error e, [])) ∧
    (∀ w stx, st.wallet = some w → sign env st txOptions pw sm = .ok stx →
      post env st txOptions pw sm =
        (if isTxError (env.broadcastSync stx txOptions.chainID) then
          .error (AuthError.broadcastError (env.broadcastSync stx txOptions.chainID).raw_log)
         else .ok (env.broadcastSync stx txOptions.chainID),
         [(stx, txOptions.chainID)])) := by
  refine ⟨fun h => ?_, fun w e hw hs => ?_, fun w stx hw hs => ?_⟩
  · simp [post, h]
  · simp [post, hw, hs]
  · simp only [post, hw, hs]
    split <;> rfl

/-- Witness for C7: the raw wallet "A" posting on chain "phoenix-1"
(broadcast succeeds: the result is returned unchanged) and on chain
"bad" (transaction-level error: BroadcastError with raw log "oops");
both traces contain exactly one broadcast call. With no wallet, `post`
fails without broadcasting. -/
theorem c7_post_broadcast_once_witness :
    post envW ⟨some (Wallet.localW "A" [] false), none⟩ ⟨"phoenix-1", 0⟩ "pw" none =
      (.ok ⟨0, "", 0⟩, [(0, "phoenix-1")]) ∧
    post envW ⟨some (Wallet.localW "A" [] false), none⟩ ⟨"bad", 0⟩ "pw" none =
      (.error (AuthError.broadcastError "oops"), [(0, "bad")]) ∧
    post envW ⟨none, none⟩ ⟨"phoenix-1", 0⟩ "pw" none =
      (.error AuthError.walletNotDefined, []) := by
  refine ⟨?_, ?_, ?_⟩
  · have h := (c7_post_broadcast_once envW ⟨some (Wallet.localW "A" [] false), none⟩
      ⟨"phoenix-1", 0⟩ "pw" none).2.2 (Wallet.localW "A" [] false) 0 rfl (by decide)
    simpa [envW, isTxError] using h
  · have h := (c7_post_broadcast_once envW ⟨some (Wallet.localW "A" [] false), none⟩
      ⟨"bad", 0⟩ "pw" none).2.2 (Wallet.localW "A" [] false) 0 rfl (by decide)
    simpa [envW, isTxError] using h
  · exact (c7_post_broadcast_once envW ⟨none, none⟩ ⟨"phoenix-1", 0⟩ "pw" none).1 rfl

/-- C8: `getPubkey` is deterministic for seed and raw keys, as a
noninterference statement: two calls against possibly different session
states and environments that agree on the connected wallet's name, on
the decrypted record for that name and password, and on the pure
public-key derivation, return byte-for-byte identical results — nothing
else (other stored wallets, broadcast client, account info, the
descriptor's word map or the persisted choice) can influence the
bytes. -/
theorem c8_getPubkey_deterministic (env1 env2 : Env) (st1 st2 : AuthState)
    (n : String) (ws1 ws2 : List (String × String)) (ct : CoinType) (pw : String)
    (hw1 : st1.wallet = some (Wallet.localW n ws1 false))
    (hw2 : st2.wallet = some (Wallet.localW n ws2 false))
    (hk : env1.getDecryptedKey n pw = env2.getDecryptedKey n pw)
    (hp : env1.publicKey = env2.publicKey) :
    getPubkey env1 st1 ct pw = getPubkey env2 st2 ct pw := by
  cases h2 : env2.getDecryptedKey n pw with
  | none =>
    simp [getPubkey, hw1, hw2, getKey, getConnectedWallet, connectedWallet,
      isLocal, Wallet.name, hk, h2]
  | some k =>
    cases k <;>
      simp [getPubkey, hw1, hw2, getKey, getConnectedWallet, connectedWallet,
        isLocal, Wallet.name, hk, h2, hp]

/-- Witness for C8: the raw wallet "A" queried twice, from two session
states that differ in the descriptor's word map and in the persisted
choice, gives identical public key bytes. -/
theorem c8_getPubkey_deterministic_witness :
    getPubkey envW ⟨some (Wallet.localW "A" [("330", "w1")] false), none⟩
      CoinType.c330 "pw" =
    getPubkey envW
      ⟨some (Wallet.localW "A" [] false), some (Wallet.localW "A" [] false)⟩
      CoinType.c330 "pw" :=
  c8_getPubkey_deterministic envW envW
    ⟨some (Wallet.localW "A" [("330", "w1")] false), none⟩
    ⟨some (Wallet.localW "A" [] false), some (Wallet.localW "A" [] false)⟩
    "A" [("330", "w1")] [] CoinType.c330 "pw" rfl rfl rfl rfl

/-- C9: for a raw-key wallet, `signBytes` signs with the private key
stored under the tag "330" only — the result is a function of that entry
alone — and performs no JS-falsy presence check first: when the record
has no "330" entry, `pk["330"]` is `undefined` and
`Buffer.from(undefined, "hex")` throws a TypeError, which is not the
IncorrectPassword-class error thrown by `createSignature`, `sign` and
`getPubkey` in the same situation. -/
theorem c9_signBytes_raw_uses_330_unchecked (env : Env) (st : AuthState)
    (n : String) (ws byCT : List (String × String)) (pw : String)
    (bytes : List Nat)
    (hw : st.wallet = some (Wallet.localW n ws false))
    (hk : env.getDecryptedKey n pw = some (DecryptedKey.raw byCT)) :
    (∀ hex, byCT.lookup "330" = some hex →
      signBytes env st bytes pw =
        ecdsaSignResult env (ResolvedKey.raw (decodeHex hex)) bytes) ∧
    (byCT.lookup "330" = none →
      signBytes env st bytes pw = .error AuthError.typeError ∧
      ∀ msg, AuthError.typeError ≠ AuthError.passwordError msg) := by
  refine ⟨fun hex he => ?_, fun he => ⟨?_, fun msg => ?_⟩⟩
  · simp [signBytes, hw, getKey, getConnectedWallet, connectedWallet, isLocal,
      Wallet.name, hk, he]
  · simp [signBytes, hw, getKey, getConnectedWallet, connectedWallet, isLocal,
      Wallet.name, hk, he]
  · simp

/-- Witness for C9: wallet "A" (entry "0a" under "330") signs with that
key even though its record also contains nothing else; wallet "B"
(entry under "118" only) fails with the TypeError, not the
PasswordError. -/
theorem c9_signBytes_raw_uses_330_unchecked_witness :
    signBytes envW ⟨some (Wallet.localW "A" [] false), none⟩ [7] "pw" =
      ecdsaSignResult envW (ResolvedKey.raw (decodeHex "0a")) [7] ∧
    signBytes envW ⟨some (Wallet.localW "B" [] false), none⟩ [7] "pw" =
      .error AuthError.typeError :=
  ⟨(c9_signBytes_raw_uses_330_unchecked envW
      ⟨some (Wallet.localW "A" [] false), none⟩ "A" [] [("330", "0a")] "pw" [7]
      rfl rfl).1 "0a" rfl,
    ((c9_signBytes_raw_uses_330_unchecked envW
      ⟨some (Wallet.localW "B" [] false), none⟩ "B" [] [("118", "0b")] "pw" [7]
      rfl rfl).2 rfl).1⟩
